import Mathlib

/-!
Shallow embedding of the core logic of the ffmpeg HTTP service
(src/main.py and its near-duplicate src/app/main.py):

* colour translation for the subtitle engine (font_color_to_ass_color),
* filter-graph path escaping (escape_ffmpeg_path),
* the image-sequence fade filter builder (create_video_from_images /
  process_video_with_subtitle_task),
* the vocal-separation filter selection (separate_vocals),
* the asynchronous job records, the two background runners, the cleanup
  sweeper and the status/download endpoints.

Machine integers of the source are modelled as Nat/Int, Python floats as
rationals, fallible paths as Option, and the mutable task dictionary as a
function from task id to an optional record.
-/

namespace FfmpegApi

/-! ## Colour translation (src/main.py lines 553-584, src/app/main.py 466-497) -/

/-- Truncation toward zero of a rational number, the behaviour of the Python
builtin int() applied to the float 255 * (1 - alpha).  For a nonnegative
argument this agrees with the floor (num / den is the floor by
Rat.floor_def); the num/den form keeps the definition kernel-computable. -/
def pyInt (q : ℚ) : ℤ :=
  if 0 ≤ q then q.num / (q.den : ℤ) else -((-q).num / ((-q).den : ℤ))

/-- Uppercase hexadecimal digit character for a value below 16. -/
def hexDigitUpper (n : ℕ) : Char :=
  if n < 10 then Char.ofNat (48 + n) else Char.ofNat (55 + n)

/-- Hexadecimal digits, most significant first, with explicit fuel (the fuel
bounds the number of digits; n itself is always enough fuel). -/
def hexCharsAux : ℕ → ℕ → List Char
  | 0, _ => []
  | _, 0 => []
  | fuel + 1, n => hexCharsAux fuel (n / 16) ++ [hexDigitUpper (n % 16)]

/-- Hexadecimal digits of a natural number, most significant first; empty for 0. -/
def hexChars (n : ℕ) : List Char :=
  hexCharsAux n n

/-- Left zero-padding to width two, as the Python format spec 02X does. -/
def pad2 (l : List Char) : List Char :=
  if l.length = 0 then ['0', '0']
  else if l.length = 1 then '0' :: l
  else l

/-- The Python builtin format(i, "02X") (uppercase hex, zero-padded to width 2). -/
def format02X (i : ℤ) : String :=
  if i < 0 then String.mk ('-' :: hexChars i.natAbs)
  else String.mk (pad2 (hexChars i.toNat))

/-- The Python str.lower() of the colour token (ASCII case folding; the
palette names are ASCII). -/
def pyLower (s : String) : String :=
  String.mk (s.data.map Char.toLower)

/-- The Python color.startswith of a single hash character. -/
def startsWithHash (s : String) : Bool :=
  match s.data with
  | '#' :: _ => true
  | _ => false

/-- The Python slice color[1:]. -/
def pyDrop1 (s : String) : String :=
  String.mk s.data.tail

/-- Inner helper rgb_to_bgr of font_color_to_ass_color (src/main.py 555-560):
a 6-character hex string has its byte pairs reordered RGB -> BGR, anything
else is returned unchanged. -/
def rgb_to_bgr (s : String) : String :=
  match s.data with
  | [r1, r2, g1, g2, b1, b2] => String.mk [b1, b2, g1, g2, r1, r2]
  | _ => s

/-- The fixed colour lookup table of font_color_to_ass_color (src/main.py 563-570). -/
def color_map (c : String) : Option String :=
  if c = "white" then some "FFFFFF"
  else if c = "black" then some "000000"
  else if c = "red" then some "FF0000"
  else if c = "green" then some "00FF00"
  else if c = "blue" then some "0000FF"
  else if c = "yellow" then some "FFFF00"
  else none

/-- The color_hex computation of font_color_to_ass_color (src/main.py
572-578): lower-cased table lookup, else strip a leading hash, else white. -/
def codeResolveColor (color : String) : String :=
  match color_map (pyLower color) with
  | some h => h
  | none => if startsWithHash color then pyDrop1 color else "FFFFFF"

/-- font_color_to_ass_color (src/main.py 553-584): resolve the colour token,
convert the alpha with int(255 * (1 - alpha)) formatted 02X, and prepend it
to the BGR-reordered colour hex. -/
def font_color_to_ass_color (color : String) (alpha : ℚ) : String :=
  format02X (pyInt (255 * (1 - alpha))) ++ rgb_to_bgr (codeResolveColor color)

/-- Colour-token resolution exactly as the claim words it: a case-insensitive
name from the fixed palette, a hash-prefixed 6-hex-digit string (7 characters
in total), and anything else falls back to white. -/
def resolveColorClaim (color : String) : String :=
  match color_map (pyLower color) with
  | some h => h
  | none =>
    if startsWithHash color ∧ color.data.length = 7 then pyDrop1 color
    else "FFFFFF"

/-- The colour translation exactly as the claim words it, with the alpha byte
computed by rounding: round(255 * (1 - alpha)). -/
def font_color_to_ass_color_claim (color : String) (alpha : ℚ) : String :=
  format02X (round (255 * (1 - alpha))) ++ rgb_to_bgr (resolveColorClaim color)

/-- Hexadecimal digit characters (either case). -/
def isHexDigitChar (c : Char) : Bool :=
  (48 ≤ c.toNat && c.toNat ≤ 57) ||
  (65 ≤ c.toNat && c.toNat ≤ 70) ||
  (97 ≤ c.toNat && c.toNat ≤ 102)

/-- The domain of colour tokens described by the claim: a hash-prefixed token
must consist of the hash and exactly six hex digits; any token not starting
with a hash is allowed (named colours and the fall-back-to-white case). -/
def tokenDomain (color : String) : Prop :=
  startsWithHash color = true →
    color.data.length = 7 ∧ (pyDrop1 color).data.all isHexDigitChar = true

/-! ## Path escaping (escape_ffmpeg_path, src/main.py 2204-2210) -/

/-- The Python path.replace of every backslash by a forward slash
(single-character pattern, so replace is a character map). -/
def replaceBackslash (l : List Char) : List Char :=
  l.map fun c => if c = '\\' then '/' else c

/-- The Python path.split(":", 1): the segment before the first colon and the
remainder after it, when the path contains a colon. -/
def splitFirstColon : List Char → Option (List Char × List Char)
  | [] => none
  | c :: rest =>
    if c = ':' then some ([], rest)
    else
      match splitFirstColon rest with
      | some (pre, post) => some (c :: pre, post)
      | none => none

/-- escape_ffmpeg_path (src/main.py 2204-2210): normalize backslashes to
slashes, then, when a colon is present, re-join the parts around the FIRST
colon with a backslash-escaped colon; otherwise return the path unchanged. -/
def escape_ffmpeg_path (s : String) : String :=
  let p := replaceBackslash s.data
  match splitFirstColon p with
  | some (drive, rest) => String.mk (drive ++ '\\' :: ':' :: rest)
  | none => String.mk p

/-- Scan for an unescaped colon: a colon occurrence counts as escaped exactly
when the immediately preceding character is a backslash.  The first argument
carries the previous character (initially a space, which is no backslash). -/
def noUnescColonAux : Char → List Char → Bool
  | _, [] => true
  | prev, c :: rest => (c != ':' || prev == '\\') && noUnescColonAux c rest

/-- The string has no unescaped colon. -/
def noUnescapedColon (l : List Char) : Bool :=
  noUnescColonAux ' ' l

/-! ## Image-sequence fade filter builder
(create_video_from_images, src/main.py 228-256; the same branch structure in
process_video_with_subtitle_task, src/main.py 1886-1944) -/

/-- One fade operation emitted for a segment: fade-in or fade-out with the
start timestamp st and duration d written into the filter string. -/
inductive FadeOp where
  | fadeIn (st d : ℚ)
  | fadeOut (st d : ℚ)
deriving DecidableEq

/-- The fade operations attached to segment i of n images (src/main.py
234-242 / 1899-1906): the i = 0 branch is tested first and emits only a
fade-out starting at duration_per_image - transition_duration; otherwise
i = n-1 emits only a fade-in starting at 0; interior segments emit both. -/
def fadeOps (n i : ℕ) (dpi td : ℚ) : List FadeOp :=
  if i = 0 then [FadeOp.fadeOut (dpi - td) td]
  else if i = n - 1 then [FadeOp.fadeIn 0 td]
  else [FadeOp.fadeIn 0 td, FadeOp.fadeOut (dpi - td) td]

/-- The labeled pre-concat segments, one per image index (each index also
receives its scale+pad node; the textual label vi is modelled by the index). -/
def buildFadeSegments (n : ℕ) (dpi td : ℚ) : List (ℕ × List FadeOp) :=
  (List.range n).map fun i => (i, fadeOps n i dpi td)

/-- The concat node (src/main.py 254-256 / 1943-1944): input labels
v0..v(n-1) and the parameter n = number of images.  The source emits it
unconditionally, also for n = 0. -/
structure ConcatNode where
  inputs : List ℕ
  n : ℕ
deriving DecidableEq

def buildConcatNode (n : ℕ) : ConcatNode :=
  { inputs := List.range n, n := n }

/-- The full pre-concat filter graph: the n fade segments plus the concat. -/
def buildFadeFilter (n : ℕ) (dpi td : ℚ) : List (ℕ × List FadeOp) × ConcatNode :=
  (buildFadeSegments n dpi td, buildConcatNode n)

/-- Image selection of create_video_with_subtitle_async (src/main.py
1744-1757): reject when the directory glob found no images, THEN truncate to
image_limit — in that order, so a limit of 0 passes the emptiness check. -/
def selectImages (files : List String) (image_limit : Option ℕ) :
    Except String (List String) :=
  if files.isEmpty then Except.error "在目錄中找不到圖片檔案"
  else
    Except.ok (match image_limit with
      | some l => files.take l
      | none => files)

/-- Does a segment's operation list contain any fade-in? -/
def hasFadeIn (ops : List FadeOp) : Bool :=
  ops.any fun o =>
    match o with
    | FadeOp.fadeIn _ _ => true
    | _ => false

/-! ## Vocal separation filter selection (separate_vocals, src/main.py
1582-1599) -/

/-- The audio filter chain built by separate_vocals: both channels pass
through highpass then lowpass with the given cutoffs, and the rejoined
stereo stream gets the stereotools mid/side levels. -/
structure VocalFilter where
  highpassCutoff : ℤ
  lowpassCutoff : ℤ
  mlev : ℚ
  slev : ℚ
deriving DecidableEq

/-- separate_vocals filter construction (src/main.py 1582-1599): the branch
is a plain if/else on vocal_type == "vocals", so every other value takes the
instrumental branch (highpass = high_freq, lowpass = low_freq,
mlev = 1 - center_boost, slev = 1 + side_reduction). -/
def separate_vocals_filter (vocal_type : String) (high_freq low_freq : ℤ)
    (center_boost side_reduction : ℚ) : VocalFilter :=
  if vocal_type = "vocals" then
    { highpassCutoff := low_freq, lowpassCutoff := high_freq,
      mlev := center_boost, slev := side_reduction }
  else
    { highpassCutoff := high_freq, lowpassCutoff := low_freq,
      mlev := 1 - center_boost, slev := 1 + side_reduction }

/-! ## Asynchronous jobs: records, runners, cleanup, download
(src/main.py 1224-1232, 1856-1864, 1875-2025, 1292-1435, 1438-1465,
1243-1290) -/

inductive JStatus where
  | pending
  | processing
  | completed
  | failed
deriving DecidableEq

/-- One entry of the tasks dictionary (src/main.py 1224-1232, 1856-1864). -/
structure TaskRecord where
  status : JStatus
  outputPath : Option String
  error : Option String
  progress : ℕ
  createdAt : ℕ
  completedAt : Option ℕ
deriving DecidableEq

/-- The record created at submission: pending, no output path, no error,
progress 0, no completion time. -/
def initTaskRecord (now : ℕ) : TaskRecord :=
  { status := JStatus.pending, outputPath := none, error := none,
    progress := 0, createdAt := now, completedAt := none }

/-- Observable result of one external process invocation: exit code,
captured standard-error text, and whether the declared output file was
created. -/
structure StepResult where
  returncode : ℤ
  stderrText : String
  outputExists : Bool

/-- The failure test of the video-with-subtitle runner's stages (src/main.py
1974, 2001): non-zero exit code or missing declared output file. -/
def stepFailed (s : StepResult) : Bool :=
  s.returncode != 0 || !s.outputExists

/-- os.path.join for the paths built by the runners. -/
def joinPath (dir file : String) : String :=
  dir ++ "/" ++ file

/-- What a runner leaves behind: the successive task-dict snapshots visible
at await points (asyncio switches tasks only at await, so consecutive
synchronous mutations collapse into one observable snapshot), whether the
task working directory still exists, and the files remaining inside it. -/
structure RunOutcome where
  trace : List TaskRecord
  dirPresent : Bool
  dirFiles : List String

/-- process_video_with_subtitle_task (src/main.py 1875-2025).  Stage 1
composes the images into video.fmt; stage 2 burns the subtitles into
output.fmt.  On success the record becomes completed with the output path
and progress 100 and the intermediate video file is removed (2007-2015); on
any failure the record becomes failed with the raise-site message (both
sites embed the captured stderr, 1977 and 2006) and the whole task directory
is removed (2016-2025). -/
def videoSubtitleRun (taskDir fmt : String) (staged : List String)
    (s1 s2 : StepResult) (t0 tEnd : ℕ) : RunOutcome :=
  let r0 := initTaskRecord t0
  let r1 := { r0 with status := JStatus.processing, progress := 10 }
  let videoFile := joinPath taskDir ("video." ++ fmt)
  let outputFile := joinPath taskDir ("output." ++ fmt)
  if stepFailed s1 then
    let rf := { r1 with
      status := JStatus.failed,
      error := some ("合成影片失敗: " ++ s1.stderrText),
      completedAt := some tEnd }
    { trace := [r0, r1, rf], dirPresent := false, dirFiles := [] }
  else
    let files1 := staged ++ [videoFile]
    let r2 := { r1 with progress := 60 }
    if stepFailed s2 then
      let rf := { r2 with
        status := JStatus.failed,
        error := some ("加字幕失敗: " ++ s2.stderrText),
        completedAt := some tEnd }
      { trace := [r0, r1, r2, rf], dirPresent := false, dirFiles := [] }
    else
      let rc := { r2 with
        status := JStatus.completed,
        outputPath := some outputFile,
        progress := 100,
        completedAt := some tEnd }
      { trace := [r0, r1, r2, rc], dirPresent := true,
        dirFiles := (files1 ++ [outputFile]).erase videoFile }

/-- process_visualization_task (src/main.py 1292-1435).  Stage 1 builds the
background video: only the exit code is checked and the raise carries a
fixed message WITHOUT the captured stderr (1344-1345).  Stage 2 runs the
visualization command: line 1374 discards the result of communicate(), so
the error path at 1376-1379 reads an unbound name and the except block
records the NameError text instead of the captured stderr.  Stage 3 burns
the subtitles (exit code or missing output; message embeds the captured
stderr, 1403-1407).  On any failure the whole task directory is removed
(1423-1435); on success the two intermediates are deleted (1417-1421). -/
def visualizationRun (taskDir fmt : String) (staged : List String)
    (s1 s2 s3 : StepResult) (t0 tEnd : ℕ) : RunOutcome :=
  let r0 := initTaskRecord t0
  let r1 := { r0 with status := JStatus.processing, progress := 10 }
  let bgFile := joinPath taskDir "background.mp4"
  let tempFile := joinPath taskDir "temp_video.mp4"
  let outputFile := joinPath taskDir ("output." ++ fmt)
  if s1.returncode != 0 then
    let rf := { r1 with
      status := JStatus.failed,
      error := some "背景影片生成失敗",
      completedAt := some tEnd }
    { trace := [r0, r1, rf], dirPresent := false, dirFiles := [] }
  else
    let files1 := staged ++ (if s1.outputExists then [bgFile] else [])
    let r2 := { r1 with progress := 40 }
    if s2.returncode != 0 then
      let rf := { r2 with
        status := JStatus.failed,
        error := some "name \x27stderr\x27 is not defined",
        completedAt := some tEnd }
      { trace := [r0, r1, r2, rf], dirPresent := false, dirFiles := [] }
    else
      let files2 := files1 ++ (if s2.outputExists then [tempFile] else [])
      let r3 := { r2 with progress := 70 }
      if stepFailed s3 then
        let rf := { r3 with
          status := JStatus.failed,
          error := some ("字幕加入失敗: " ++ s3.stderrText),
          completedAt := some tEnd }
        { trace := [r0, r1, r2, r3, rf], dirPresent := false, dirFiles := [] }
      else
        let rc := { r3 with
          status := JStatus.completed,
          outputPath := some outputFile,
          progress := 100,
          completedAt := some tEnd }
        { trace := [r0, r1, r2, r3, rc], dirPresent := true,
          dirFiles := ((files2 ++ [outputFile]).erase bgFile).erase tempFile }

/-- The lifecycle facts claimed for one runner execution: the first snapshot
is the pending init record; every snapshot with status completed carries a
non-empty output path and progress 100; and the final snapshot is either
completed (non-empty output path, progress 100) or failed (non-empty
error). -/
def lifecycleOK (t0 : ℕ) (o : RunOutcome) : Prop :=
  o.trace.head? = some (initTaskRecord t0) ∧
  (∀ r ∈ o.trace, r.status = JStatus.completed →
      (∃ p, r.outputPath = some p ∧ p ≠ "") ∧ r.progress = 100) ∧
  (∃ r, o.trace.getLast? = some r ∧
    ((r.status = JStatus.completed ∧ (∃ p, r.outputPath = some p ∧ p ≠ "") ∧
        r.progress = 100) ∨
     (r.status = JStatus.failed ∧ ∃ e, r.error = some e ∧ e ≠ "")))

/-- Is the first list a prefix of the second (character lists)? -/
def startsChars : List Char → List Char → Bool
  | [], _ => true
  | _ :: _, [] => false
  | a :: as, b :: bs => a == b && startsChars as bs

/-- Does the needle occur contiguously inside the haystack? -/
def containsChars (needle : List Char) : List Char → Bool
  | [] => needle.isEmpty
  | c :: rest => startsChars needle (c :: rest) || containsChars needle rest

/-- Substring test on strings, used to state that a recorded error message
does not contain the external process's captured stderr text. -/
def occursIn (needle hay : String) : Bool :=
  containsChars needle.data hay.data

/-! ## Task store: status query, cleanup sweeper, download
(src/main.py 1243-1290, 1438-1465) -/

/-- The global tasks dictionary, as a map from task id to the record plus a
flag for whether the task's working directory still exists on disk. -/
abbrev TaskStore : Type := String → Option (TaskRecord × Bool)

/-- The lookup of get_task_status (src/main.py 1247-1251): a task id not in
the dictionary resolves to not-found, otherwise to the record. -/
def get_task_status (store : TaskStore) (task_id : String) : Option TaskRecord :=
  (store task_id).map Prod.fst

/-- Python truthiness of the output_path field (None and the empty string
are falsy). -/
def outputTruthy (r : TaskRecord) : Bool :=
  match r.outputPath with
  | some p => p != ""
  | none => false

/-- Status in [COMPLETED, FAILED] (src/main.py 1445). -/
def isTerminal (r : TaskRecord) : Bool :=
  match r.status with
  | JStatus.completed => true
  | JStatus.failed => true
  | _ => false

def isCompletedStatus (r : TaskRecord) : Bool :=
  match r.status with
  | JStatus.completed => true
  | _ => false

/-- The removal condition of cleanup_tasks (src/main.py 1444-1448): terminal
status and completed_at more than 3600 seconds before the sweep.  A terminal
record always carries completed_at (the lifecycle invariant of the runners);
for a hypothetical terminal record without it the source would raise inside
the sweeper's try block, so nothing would be removed — modelled as false. -/
def shouldReap (now : ℕ) (r : TaskRecord) : Bool :=
  isTerminal r &&
    (match r.completedAt with
     | some t => decide (3600 < now - t)
     | none => false)

/-- One pass of cleanup_tasks over the store (src/main.py 1438-1465): every
record meeting the removal condition is deleted from the dictionary; all
other records are untouched. -/
def cleanupSweep (now : ℕ) (store : TaskStore) : TaskStore := fun id =>
  match store id with
  | some (r, d) => if shouldReap now r then none else some (r, d)
  | none => none

/-- Whether the sweep deletes the working directory of the given task
(src/main.py 1449-1454): only for reaped records whose status is completed
with a truthy output_path, and only when the directory still exists. -/
def sweepRemovesDir (now : ℕ) (store : TaskStore) (id : String) : Bool :=
  match store id with
  | some (r, d) => shouldReap now r && isCompletedStatus r && outputTruthy r && d
  | none => false

/-- download_task_result (src/main.py 1273-1290): not-found unless the task
exists with status completed; then not-found unless the recorded output_path
is truthy and present on disk; otherwise the file at output_path is served
with the client-supplied filename used only as the suggested name. -/
def download_task_result (store : TaskStore) (fileExists : String → Bool)
    (task_id filename : String) : Option (String × String) :=
  match store task_id with
  | none => none
  | some (r, _) =>
    if r.status = JStatus.completed then
      match r.outputPath with
      | some p =>
        if p = "" then none
        else if fileExists p then some (p, filename) else none
      | none => none
    else none

/-- A concrete completed store entry used by the witnesses. -/
def witnessRecord : TaskRecord :=
  { status := JStatus.completed, outputPath := some "task_outputs/t1/output.mp4",
    error := none, progress := 100, createdAt := 0, completedAt := some 0 }

def witnessStore : TaskStore := fun id =>
  if id = "t1" then some (witnessRecord, true) else none

/-! ## Theorems -/

/-! ### Helper lemmas for the colour translation -/

theorem pyInt_eq_floor (q : ℚ) (h : 0 ≤ q) : pyInt q = ⌊q⌋ := by
  rw [Rat.floor_def]
  simp [pyInt, h]

set_option maxRecDepth 4000 in
theorem hex2_facts : ∀ n : ℕ, n < 256 →
    (pad2 (hexChars n)).length = 2 ∧ (pad2 (hexChars n)).all isHexDigitChar = true := by
  decide

theorem format02X_of_byte (i : ℤ) (h0 : 0 ≤ i) (h1 : i < 256) :
    (format02X i).data = pad2 (hexChars i.toNat) ∧
    (format02X i).length = 2 ∧ (format02X i).data.all isHexDigitChar = true := by
  have hne : ¬ i < 0 := by omega
  have hlt : i.toNat < 256 := by omega
  have hfacts := hex2_facts i.toNat hlt
  refine ⟨?_, ?_, ?_⟩
  · simp [format02X, hne]
  · simpa [format02X, hne, String.length] using hfacts.1
  · simpa [format02X, hne] using hfacts.2

theorem exists_six_chars (l : List Char) (h : l.length = 6) :
    ∃ a b c d e f, l = [a, b, c, d, e, f] := by
  rcases l with _ | ⟨a, _ | ⟨b, _ | ⟨c, _ | ⟨d, _ | ⟨e, _ | ⟨f, _ | ⟨g, t⟩⟩⟩⟩⟩⟩⟩ <;>
    first
      | exact ⟨a, b, c, d, e, f, rfl⟩
      | simp_all

theorem rgb_to_bgr_six (a b c d e f : Char) :
    rgb_to_bgr (String.mk [a, b, c, d, e, f]) = String.mk [e, f, c, d, a, b] := rfl

theorem alphaByte_bounds (alpha : ℚ) (h0 : 0 ≤ alpha) (h1 : alpha ≤ 1) :
    0 ≤ ⌊255 * (1 - alpha)⌋ ∧ ⌊255 * (1 - alpha)⌋ < 256 := by
  constructor
  · apply Int.floor_nonneg.mpr
    nlinarith
  · have : (255 : ℚ) * (1 - alpha) ≤ 255 := by nlinarith
    have := Int.floor_le_floor this
    simp at this
    omega

theorem strData_append (s t : String) : (s ++ t).data = s.data ++ t.data := rfl

theorem strLength_data (s : String) : s.length = s.data.length := rfl

theorem color_map_values (c h : String) (hmap : color_map c = some h) :
    h ∈ ["FFFFFF", "000000", "FF0000", "00FF00", "0000FF", "FFFF00"] := by
  unfold color_map at hmap
  split_ifs at hmap <;> simp_all

theorem codeResolve_eq_claim (color : String) (hdom : tokenDomain color) :
    codeResolveColor color = resolveColorClaim color := by
  unfold codeResolveColor resolveColorClaim
  cases hmap : color_map (pyLower color) with
  | some h => rfl
  | none =>
    by_cases hsh : startsWithHash color = true
    · have hlen := (hdom hsh).1
      simp [hsh, hlen]
    · simp [hsh]

theorem codeResolve_shape (color : String) (hdom : tokenDomain color) :
    (codeResolveColor color).data.length = 6 ∧
    (codeResolveColor color).data.all isHexDigitChar = true := by
  unfold codeResolveColor
  cases hmap : color_map (pyLower color) with
  | some h =>
    have := color_map_values _ _ hmap
    simp only [List.mem_cons, List.not_mem_nil, or_false] at this
    rcases this with rfl | rfl | rfl | rfl | rfl | rfl <;> exact ⟨rfl, rfl⟩
  | none =>
    by_cases hsh : startsWithHash color = true
    · obtain ⟨hlen, hall⟩ := hdom hsh
      refine ⟨?_, by simpa [hsh] using hall⟩
      simp only [hsh, if_true]
      have : (pyDrop1 color).data = color.data.tail := rfl
      rw [this, List.length_tail, hlen]
    · simp [hsh, isHexDigitChar]

/-- Claim C2, counterexample: the claim computes the alpha byte with
round(255 * (1 - alpha)), but font_color_to_ass_color uses Python int(),
which truncates.  At alpha = 1/2 the code yields alpha byte 127 = 0x7F while
the claimed rounding yields 128 = 0x80, so the two translations differ. -/
theorem C2_counterexample :
    font_color_to_ass_color "white" (1/2) = "7FFFFFFF" ∧
    font_color_to_ass_color_claim "white" (1/2) = "80FFFFFF" ∧
    font_color_to_ass_color "white" (1/2) ≠ font_color_to_ass_color_claim "white" (1/2) := by
  have hfloor : pyInt (255 * (1 - 1/2 : ℚ)) = 127 := by
    rw [pyInt_eq_floor _ (by norm_num), Int.floor_eq_iff]
    norm_num
  have hround : round ((255 : ℚ) * (1 - 1/2)) = 128 := by norm_num [round_eq]
  have h1 : font_color_to_ass_color "white" (1/2) = "7FFFFFFF" := by
    unfold font_color_to_ass_color
    rw [hfloor]
    decide
  have h2 : font_color_to_ass_color_claim "white" (1/2) = "80FFFFFF" := by
    unfold font_color_to_ass_color_claim
    rw [hround]
    decide
  exact ⟨h1, h2, by rw [h1, h2]; decide⟩

/-- Claim C2 (amended): for every colour token in the claimed domain and
every alpha in [0,1], font_color_to_ass_color returns the alpha byte computed
as the floor (Python int truncation) of 255 * (1 - alpha) in two uppercase
hex digits, followed by the RGB hex reordered to BGR; the result is an
8-hex-digit string, alpha = 1.0 yields alpha byte 00 and alpha = 0.0 yields
FF. -/
theorem C2_amended (color : String) (alpha : ℚ) (h0 : 0 ≤ alpha) (h1 : alpha ≤ 1)
    (hdom : tokenDomain color) :
    font_color_to_ass_color color alpha
        = format02X ⌊255 * (1 - alpha)⌋ ++ rgb_to_bgr (resolveColorClaim color) ∧
      (font_color_to_ass_color color alpha).length = 8 ∧
      (font_color_to_ass_color color alpha).data.all isHexDigitChar = true ∧
      font_color_to_ass_color color 1 = "00" ++ rgb_to_bgr (resolveColorClaim color) ∧
      font_color_to_ass_color color 0 = "FF" ++ rgb_to_bgr (resolveColorClaim color) := by
  have hres := codeResolve_eq_claim color hdom
  have hshape := codeResolve_shape color hdom
  obtain ⟨a, b, c, d, e, f, habc⟩ := exists_six_chars _ hshape.1
  have hstr : codeResolveColor color = String.mk [a, b, c, d, e, f] := String.ext habc
  have hpos : (0 : ℚ) ≤ 255 * (1 - alpha) := by nlinarith
  have hbounds := alphaByte_bounds alpha h0 h1
  have hfmt := format02X_of_byte _ hbounds.1 hbounds.2
  have hkey : font_color_to_ass_color color alpha
      = format02X ⌊255 * (1 - alpha)⌋ ++ rgb_to_bgr (resolveColorClaim color) := by
    unfold font_color_to_ass_color
    rw [pyInt_eq_floor _ hpos, hres]
  have hhex6 : [a, b, c, d, e, f].all isHexDigitChar = true := habc ▸ hshape.2
  have hhexperm : [e, f, c, d, a, b].all isHexDigitChar = true := by
    simp only [List.all_cons, List.all_nil, Bool.and_eq_true, Bool.and_true] at hhex6 ⊢
    tauto
  refine ⟨hkey, ?_, ?_, ?_, ?_⟩
  · rw [hkey, ← hres, hstr, rgb_to_bgr_six, strLength_data, strData_append]
    rw [List.length_append]
    have h2 : (format02X ⌊255 * (1 - alpha)⌋).data.length = 2 := by
      rw [← strLength_data]; exact hfmt.2.1
    simp [h2]
  · rw [hkey, ← hres, hstr, rgb_to_bgr_six, strData_append, List.all_append]
    rw [hfmt.2.2]
    simpa using hhexperm
  · unfold font_color_to_ass_color
    have hz : (255 : ℚ) * (1 - 1) = 0 := by norm_num
    rw [hz, hres]
    norm_num [pyInt, format02X, pad2, hexChars, hexCharsAux]
  · unfold font_color_to_ass_color
    have hz : (255 : ℚ) * (1 - 0) = 255 := by norm_num
    rw [hz, hres]
    have h255 : pyInt 255 = 255 := by
      rw [pyInt_eq_floor _ (by norm_num)]
      exact Int.floor_intCast 255
    rw [h255, show format02X 255 = "FF" from by decide]

/-- Claim C2 (amended), witness: the amended theorem applied to the colour
token red at alpha = 1/2. -/
theorem C2_amended_witness :
    font_color_to_ass_color "red" (1/2)
        = format02X ⌊255 * (1 - (1/2 : ℚ))⌋ ++ rgb_to_bgr (resolveColorClaim "red") ∧
      (font_color_to_ass_color "red" (1/2)).length = 8 ∧
      (font_color_to_ass_color "red" (1/2)).data.all isHexDigitChar = true ∧
      font_color_to_ass_color "red" 1 = "00" ++ rgb_to_bgr (resolveColorClaim "red") ∧
      font_color_to_ass_color "red" 0 = "FF" ++ rgb_to_bgr (resolveColorClaim "red") :=
  C2_amended "red" (1/2) (by norm_num) (by norm_num) (fun h => absurd h (by decide))

theorem replaceBackslash_id : ∀ l : List Char, '\\' ∉ l → replaceBackslash l = l := by
  intro l
  induction l with
  | nil => intro _; rfl
  | cons c t ih =>
    intro h
    simp only [List.mem_cons, not_or] at h
    have hc : ¬(c = '\\') := fun hh => h.1 hh.symm
    simp only [replaceBackslash, List.map_cons, if_neg hc]
    have := ih h.2
    simp only [replaceBackslash] at this
    rw [this]

theorem splitFirstColon_none : ∀ l : List Char, ':' ∉ l → splitFirstColon l = none := by
  intro l
  induction l with
  | nil => intro _; rfl
  | cons c t ih =>
    intro h
    simp only [List.mem_cons, not_or] at h
    have hc : ¬(c = ':') := fun hh => h.1 hh.symm
    simp [splitFirstColon, hc, ih h.2]

theorem splitFirstColon_append (post : List Char) :
    ∀ pre : List Char, ':' ∉ pre →
      splitFirstColon (pre ++ ':' :: post) = some (pre, post) := by
  intro pre
  induction pre with
  | nil => intro _; simp [splitFirstColon]
  | cons c t ih =>
    intro h
    simp only [List.mem_cons, not_or] at h
    have hc : ¬(c = ':') := fun hh => h.1 hh.symm
    simp [splitFirstColon, hc, ih h.2]

theorem noUnescColonAux_no_colon : ∀ l : List Char, ':' ∉ l →
    ∀ prev : Char, noUnescColonAux prev l = true := by
  intro l
  induction l with
  | nil => intro _ _; rfl
  | cons c t ih =>
    intro h prev
    simp only [List.mem_cons, not_or] at h
    have hc : c != ':' := by
      cases hbe : c == ':' with
      | true => exact absurd (eq_of_beq hbe).symm h.1
      | false => simp [bne, hbe]
    simp [noUnescColonAux, hc, ih h.2]

theorem noUnescColonAux_escaped (post : List Char) (hpost : ':' ∉ post) :
    ∀ pre : List Char, ':' ∉ pre →
      ∀ prev : Char, noUnescColonAux prev (pre ++ '\\' :: ':' :: post) = true := by
  intro pre
  induction pre with
  | nil =>
    intro _ prev
    simp [noUnescColonAux, noUnescColonAux_no_colon post hpost]
  | cons c t ih =>
    intro h prev
    simp only [List.mem_cons, not_or] at h
    have hc : c != ':' := by
      cases hbe : c == ':' with
      | true => exact absurd (eq_of_beq hbe).symm h.1
      | false => simp [bne, hbe]
    simp only [List.cons_append, noUnescColonAux, hc, Bool.true_or, Bool.true_and]
    exact ih h.2 c

/-- Claim C7, counterexample: escape_ffmpeg_path escapes only the FIRST
colon, so a path with two colons keeps an unescaped one; and it is not
idempotent — re-escaping an escaped path first rewrites the inserted
backslash to a slash and then escapes again. -/
theorem C7_counterexample :
    escape_ffmpeg_path "C:/a.srt" = "C\\:/a.srt" ∧
    escape_ffmpeg_path (escape_ffmpeg_path "C:/a.srt") = "C/\\:/a.srt" ∧
    escape_ffmpeg_path (escape_ffmpeg_path "C:/a.srt") ≠ escape_ffmpeg_path "C:/a.srt" ∧
    noUnescapedColon (escape_ffmpeg_path "C:/a:b").data = false := by
  refine ⟨by decide, by decide, by decide, by decide⟩

/-- Claim C7 (amended): escape_ffmpeg_path escapes exactly the first colon.
For a canonical path with no backslash and at most one colon the result has
no unescaped colon (the sole colon becomes backslash-colon), and a path with
no colon and no backslash is returned unchanged (so escaping is idempotent
there); on already-escaped paths the function is NOT idempotent. -/
theorem C7_amended (pre post : List Char)
    (hpre_c : ':' ∉ pre) (hpre_b : '\\' ∉ pre)
    (hpost_c : ':' ∉ post) (hpost_b : '\\' ∉ post) :
    escape_ffmpeg_path (String.mk (pre ++ ':' :: post))
        = String.mk (pre ++ '\\' :: ':' :: post) ∧
    noUnescapedColon (escape_ffmpeg_path (String.mk (pre ++ ':' :: post))).data = true ∧
    escape_ffmpeg_path (String.mk pre) = String.mk pre ∧
    escape_ffmpeg_path (escape_ffmpeg_path (String.mk pre)) = String.mk pre := by
  have hnb : '\\' ∉ pre ++ ':' :: post := by
    simp only [List.mem_append, List.mem_cons, not_or]
    exact ⟨hpre_b, by decide, hpost_b⟩
  have hesc : escape_ffmpeg_path (String.mk (pre ++ ':' :: post))
      = String.mk (pre ++ '\\' :: ':' :: post) := by
    unfold escape_ffmpeg_path
    simp only [replaceBackslash_id _ hnb, splitFirstColon_append post pre hpre_c]
  have hplain : escape_ffmpeg_path (String.mk pre) = String.mk pre := by
    unfold escape_ffmpeg_path
    simp only [replaceBackslash_id _ hpre_b, splitFirstColon_none _ hpre_c]
  refine ⟨hesc, ?_, hplain, by rw [hplain, hplain]⟩
  rw [hesc]
  exact noUnescColonAux_escaped post hpost_c pre hpre_c ' '

/-- Claim C7 (amended), witness: the amended theorem at the concrete path
C:/a (drive segment C, remainder /a). -/
theorem C7_amended_witness :
    escape_ffmpeg_path (String.mk (['C'] ++ ':' :: ['/', 'a']))
        = String.mk (['C'] ++ '\\' :: ':' :: ['/', 'a']) ∧
    noUnescapedColon (escape_ffmpeg_path (String.mk (['C'] ++ ':' :: ['/', 'a']))).data = true ∧
    escape_ffmpeg_path (String.mk ['C']) = String.mk ['C'] ∧
    escape_ffmpeg_path (escape_ffmpeg_path (String.mk ['C'])) = String.mk ['C'] :=
  C7_amended ['C'] ['/', 'a'] (by decide) (by decide) (by decide) (by decide)

/-- Claim C4, counterexample: with image_limit = 0 the handler's emptiness
check passes before truncation, so the builder is reached with zero images,
and for zero images it emits an empty concat node (n = 0, no inputs) instead
of rejecting. -/
theorem C4_counterexample :
    selectImages ["a.jpg"] (some 0) = Except.ok [] ∧
    buildFadeFilter 0 5 2 = ([], { inputs := [], n := 0 }) :=
  ⟨rfl, rfl⟩

/-- Claim C4 (amended): for every list of N images the builder produces
exactly N labeled pre-concat segments (labelled 0..N-1) and one concat node
referencing all N of them; for N = 0 it does not reject but emits the empty
concat node with n = 0 and no inputs. -/
theorem C4_amended (n : ℕ) (dpi td : ℚ) :
    (buildFadeFilter n dpi td).1.length = n ∧
    (buildFadeFilter n dpi td).1.map Prod.fst = List.range n ∧
    (buildFadeFilter n dpi td).2 = { inputs := List.range n, n := n } ∧
    buildFadeFilter 0 dpi td = ([], { inputs := [], n := 0 }) := by
  refine ⟨?_, ?_, rfl, rfl⟩
  · simp [buildFadeFilter, buildFadeSegments]
  · simp [buildFadeFilter, buildFadeSegments, List.map_map, Function.comp_def]

theorem buildFadeSegments_getElem (n : ℕ) (dpi td : ℚ) (i : ℕ) (h : i < n) :
    (buildFadeSegments n dpi td)[i]? = some (i, fadeOps n i dpi td) := by
  simp [buildFadeSegments, List.getElem?_map, List.getElem?_range, h]

/-- Claim C3, counterexample: for N = 1 the single segment — which is both
segment 0 and segment N-1 — receives only the fade-out (the i = 0 branch
wins), so no fade-in is attached to segment N-1. -/
theorem C3_counterexample :
    (buildFadeSegments 1 5 2).map (fun s => (s.1, hasFadeIn s.2)) = [(0, false)] ∧
    buildFadeSegments 1 5 2 = [(0, [FadeOp.fadeOut 3 2])] := by
  constructor
  · decide
  · simp [buildFadeSegments, fadeOps, show List.range 1 = [0] from by decide]
    norm_num

/-- Claim C3 (amended): for every list of N ≥ 2 images with fade transition,
segment 0 gets only a fade-out starting at image_duration -
transition_duration, segment N-1 gets only a fade-in starting at 0, and
every interior segment gets both; for N = 1 the sole segment gets only the
fade-out. -/
theorem C3_amended (n : ℕ) (dpi td : ℚ) (h2 : 2 ≤ n) :
    (buildFadeSegments n dpi td)[0]? = some (0, [FadeOp.fadeOut (dpi - td) td]) ∧
    (buildFadeSegments n dpi td)[n - 1]? = some (n - 1, [FadeOp.fadeIn 0 td]) ∧
    (∀ i, 0 < i → i < n - 1 →
      (buildFadeSegments n dpi td)[i]? =
        some (i, [FadeOp.fadeIn 0 td, FadeOp.fadeOut (dpi - td) td])) ∧
    buildFadeSegments 1 dpi td = [(0, [FadeOp.fadeOut (dpi - td) td])] := by
  refine ⟨?_, ?_, ?_, ?_⟩
  · rw [buildFadeSegments_getElem n dpi td 0 (by omega)]
    simp [fadeOps]
  · rw [buildFadeSegments_getElem n dpi td (n - 1) (by omega)]
    have hne : ¬(n - 1 = 0) := by omega
    simp [fadeOps, hne]
  · intro i hi0 hin
    rw [buildFadeSegments_getElem n dpi td i (by omega)]
    have hne0 : ¬(i = 0) := by omega
    have hnel : ¬(i = n - 1) := by omega
    simp [fadeOps, hne0, hnel]
  · simp [buildFadeSegments, fadeOps, show List.range 1 = [0] from by decide]

/-- Claim C3 (amended), witness: the amended theorem at the scenario-B
parameters N = 3 images, duration_per_image = 5, transition_duration = 2. -/
theorem C3_amended_witness :
    (buildFadeSegments 3 5 2)[0]? = some (0, [FadeOp.fadeOut (5 - 2) 2]) ∧
    (buildFadeSegments 3 5 2)[3 - 1]? = some (3 - 1, [FadeOp.fadeIn 0 2]) ∧
    (∀ i, 0 < i → i < 3 - 1 →
      (buildFadeSegments 3 5 2)[i]? =
        some (i, [FadeOp.fadeIn 0 2, FadeOp.fadeOut (5 - 2) 2])) ∧
    buildFadeSegments 1 5 2 = [(0, [FadeOp.fadeOut (5 - 2) 2])] :=
  C3_amended 3 5 2 (by norm_num)

/-- Claim C5, counterexample: at duration_per_image = 5 and
transition_duration = 6 the builder does not reject; it emits the full graph
whose segment-0 fade-out start timestamp is 5 - 6 = -1, a negative value,
together with the concat node. -/
theorem C5_counterexample :
    buildFadeSegments 2 5 6 = [(0, [FadeOp.fadeOut (-1) 6]), (1, [FadeOp.fadeIn 0 6])] ∧
    (-1 : ℚ) < 0 ∧
    buildConcatNode 2 = { inputs := [0, 1], n := 2 } := by
  refine ⟨?_, by norm_num, by decide⟩
  simp [buildFadeSegments, fadeOps, show List.range 2 = [0, 1] from by decide]
  norm_num

/-- Claim C5 (amended): for transition_duration ≥ duration_per_image the
builder performs no validation: it still emits the filter graph, whose
segment-0 fade-out start timestamp duration_per_image - transition_duration
is ≤ 0 (strictly negative when transition_duration is strictly larger), and
the concat node referencing all N segments. -/
theorem C5_amended (n : ℕ) (dpi td : ℚ) (h1 : 1 ≤ n) (hge : dpi ≤ td) :
    (buildFadeSegments n dpi td)[0]? = some (0, [FadeOp.fadeOut (dpi - td) td]) ∧
    dpi - td ≤ 0 ∧
    (dpi < td → dpi - td < 0) ∧
    (buildFadeFilter n dpi td).2 = { inputs := List.range n, n := n } := by
  refine ⟨?_, by linarith, fun h => by linarith, rfl⟩
  rw [buildFadeSegments_getElem n dpi td 0 (by omega)]
  simp [fadeOps]

/-- Claim C5 (amended), witness: the amended theorem at N = 2 images,
duration_per_image = 5, transition_duration = 6. -/
theorem C5_amended_witness :
    (buildFadeSegments 2 5 6)[0]? = some (0, [FadeOp.fadeOut (5 - 6) 6]) ∧
    (5 : ℚ) - 6 ≤ 0 ∧
    ((5 : ℚ) < 6 → (5 : ℚ) - 6 < 0) ∧
    (buildFadeFilter 2 5 6).2 = { inputs := List.range 2, n := 2 } :=
  C5_amended 2 5 6 (by norm_num) (by norm_num)

/-- Claim C6, counterexample: the unknown vocal_type banana is not rejected;
it produces exactly the same filter chain as the instrumental mode. -/
theorem C6_counterexample :
    separate_vocals_filter "banana" 4000 300 2 (7/10)
      = separate_vocals_filter "instrumental" 4000 300 2 (7/10) := by
  simp [separate_vocals_filter]

/-- Claim C6 (amended): vocal_type vocals selects the vocals chain
(band-pass between low_freq and high_freq with the configured mid/side
levels); EVERY other vocal_type value, not only instrumental, silently
selects the instrumental chain — no validation error is raised. -/
theorem C6_amended (vocal_type : String) (hf lf : ℤ) (cb sr : ℚ)
    (hvt : vocal_type ≠ "vocals") :
    separate_vocals_filter vocal_type hf lf cb sr
        = { highpassCutoff := hf, lowpassCutoff := lf,
            mlev := 1 - cb, slev := 1 + sr } ∧
    separate_vocals_filter "vocals" hf lf cb sr
        = { highpassCutoff := lf, lowpassCutoff := hf, mlev := cb, slev := sr } := by
  constructor
  · simp [separate_vocals_filter, hvt]
  · simp [separate_vocals_filter]

/-- Claim C6 (amended), witness: the amended theorem at vocal_type banana
with the endpoint's default frequencies and levels. -/
theorem C6_amended_witness :
    separate_vocals_filter "banana" 4000 300 2 (7/10)
        = { highpassCutoff := 4000, lowpassCutoff := 300,
            mlev := 1 - 2, slev := 1 + 7/10 } ∧
    separate_vocals_filter "vocals" 4000 300 2 (7/10)
        = { highpassCutoff := 300, lowpassCutoff := 4000, mlev := 2, slev := 7/10 } :=
  C6_amended "banana" 4000 300 2 (7/10) (by decide)

theorem append_str_ne_empty (s t : String) (h : s.data ≠ []) : s ++ t ≠ "" := by
  intro heq
  have hd : (s ++ t).data = [] := by rw [heq]
  rw [strData_append] at hd
  exact h (List.append_eq_nil.mp hd).1

theorem joinPath_ne_empty (d f : String) : joinPath d f ≠ "" := by
  apply append_str_ne_empty
  rw [strData_append]
  simp

theorem videoSubtitleRun_lifecycle (taskDir fmt : String) (staged : List String)
    (s1 s2 : StepResult) (t0 tEnd : ℕ) :
    lifecycleOK t0 (videoSubtitleRun taskDir fmt staged s1 s2 t0 tEnd) := by
  unfold videoSubtitleRun lifecycleOK
  split_ifs with h1 h2
  · refine ⟨rfl, ?_, ?_⟩
    · intro r hr hc
      simp only [List.mem_cons, List.not_mem_nil, or_false] at hr
      rcases hr with rfl | rfl | rfl <;> simp [initTaskRecord] at hc
    · exact ⟨_, rfl, Or.inr ⟨rfl, _, rfl, append_str_ne_empty _ _ (by decide)⟩⟩
  · refine ⟨rfl, ?_, ?_⟩
    · intro r hr hc
      simp only [List.mem_cons, List.not_mem_nil, or_false] at hr
      rcases hr with rfl | rfl | rfl | rfl <;> simp [initTaskRecord] at hc
    · exact ⟨_, rfl, Or.inr ⟨rfl, _, rfl, append_str_ne_empty _ _ (by decide)⟩⟩
  · refine ⟨rfl, ?_, ?_⟩
    · intro r hr hc
      simp only [List.mem_cons, List.not_mem_nil, or_false] at hr
      rcases hr with rfl | rfl | rfl | rfl <;>
        first
          | exact ⟨⟨_, rfl, joinPath_ne_empty _ _⟩, rfl⟩
          | simp [initTaskRecord] at hc
    · exact ⟨_, rfl, Or.inl ⟨rfl, ⟨_, rfl, joinPath_ne_empty _ _⟩, rfl⟩⟩

theorem visualizationRun_lifecycle (taskDir fmt : String) (staged : List String)
    (s1 s2 s3 : StepResult) (t0 tEnd : ℕ) :
    lifecycleOK t0 (visualizationRun taskDir fmt staged s1 s2 s3 t0 tEnd) := by
  unfold visualizationRun lifecycleOK
  by_cases h1 : (s1.returncode != 0) = true
  · simp only [h1, if_true]
    refine ⟨rfl, ?_, ?_⟩
    · intro r hr hc
      simp only [List.mem_cons, List.not_mem_nil, or_false] at hr
      rcases hr with rfl | rfl | rfl <;> simp [initTaskRecord] at hc
    · exact ⟨_, rfl, Or.inr ⟨rfl, _, rfl, by decide⟩⟩
  · rw [Bool.not_eq_true] at h1
    simp only [h1, Bool.false_eq_true, if_false]
    by_cases h2 : (s2.returncode != 0) = true
    · simp only [h2, if_true]
      refine ⟨rfl, ?_, ?_⟩
      · intro r hr hc
        simp only [List.mem_cons, List.not_mem_nil, or_false] at hr
        rcases hr with rfl | rfl | rfl | rfl <;> simp [initTaskRecord] at hc
      · exact ⟨_, rfl, Or.inr ⟨rfl, _, rfl, by decide⟩⟩
    · rw [Bool.not_eq_true] at h2
      simp only [h2, Bool.false_eq_true, if_false]
      by_cases h3 : stepFailed s3 = true
      · simp only [h3, if_true]
        refine ⟨rfl, ?_, ?_⟩
        · intro r hr hc
          simp only [List.mem_cons, List.not_mem_nil, or_false] at hr
          rcases hr with rfl | rfl | rfl | rfl | rfl <;> simp [initTaskRecord] at hc
        · exact ⟨_, rfl, Or.inr ⟨rfl, _, rfl, append_str_ne_empty _ _ (by decide)⟩⟩
      · rw [Bool.not_eq_true] at h3
        simp only [h3, Bool.false_eq_true, if_false]
        refine ⟨rfl, ?_, ?_⟩
        · intro r hr hc
          simp only [List.mem_cons, List.not_mem_nil, or_false] at hr
          rcases hr with rfl | rfl | rfl | rfl | rfl <;>
            first
              | exact ⟨⟨_, rfl, joinPath_ne_empty _ _⟩, rfl⟩
              | simp [initTaskRecord] at hc
        · exact ⟨_, rfl, Or.inl ⟨rfl, ⟨_, rfl, joinPath_ne_empty _ _⟩, rfl⟩⟩

/-- Claim C1: every submitted task record is created with status pending and
progress 0; for both background runners, every observable snapshot with
status completed has a non-empty output path and progress 100, and the
record a runner leaves behind is either completed with a non-empty output
path and progress 100 or failed with a non-empty error. -/
theorem C1_job_lifecycle (taskDir fmt : String) (staged : List String)
    (s1 s2 s3 : StepResult) (t0 tEnd : ℕ) :
    (initTaskRecord t0).status = JStatus.pending ∧
    (initTaskRecord t0).progress = 0 ∧
    lifecycleOK t0 (videoSubtitleRun taskDir fmt staged s1 s2 t0 tEnd) ∧
    lifecycleOK t0 (visualizationRun taskDir fmt staged s1 s2 s3 t0 tEnd) :=
  ⟨rfl, rfl, videoSubtitleRun_lifecycle taskDir fmt staged s1 s2 t0 tEnd,
    visualizationRun_lifecycle taskDir fmt staged s1 s2 s3 t0 tEnd⟩

/-- Claim C1, witness: the lifecycle facts instantiated for a concrete
successful run of each runner. -/
theorem C1_job_lifecycle_witness :
    lifecycleOK 0 (videoSubtitleRun "task_outputs/t1" "mp4" ["a.png"]
        ⟨0, "", true⟩ ⟨0, "", true⟩ 0 5) ∧
    lifecycleOK 0 (visualizationRun "task_outputs/t1" "mp4" ["a.png"]
        ⟨0, "", true⟩ ⟨0, "", true⟩ ⟨0, "", true⟩ 0 5) :=
  ⟨(C1_job_lifecycle "task_outputs/t1" "mp4" ["a.png"]
      ⟨0, "", true⟩ ⟨0, "", true⟩ ⟨0, "", true⟩ 0 5).2.2.1,
   (C1_job_lifecycle "task_outputs/t1" "mp4" ["a.png"]
      ⟨0, "", true⟩ ⟨0, "", true⟩ ⟨0, "", true⟩ 0 5).2.2.2⟩

/-- Claim C8, counterexample: when the visualization runner's first stage
exits non-zero with captured stderr boom, the job does end failed with the
directory removed, but the recorded error is the fixed message
背景影片生成失敗, which does not contain the captured error text. -/
theorem C8_counterexample :
    (visualizationRun "task_outputs/t1" "mp4" ["a.png"]
        ⟨1, "boom", false⟩ ⟨0, "", true⟩ ⟨0, "", true⟩ 0 5).trace.getLast?
      = some { status := JStatus.failed, outputPath := none,
               error := some "背景影片生成失敗", progress := 10,
               createdAt := 0, completedAt := some 5 } ∧
    occursIn "boom" "背景影片生成失敗" = false ∧
    (visualizationRun "task_outputs/t1" "mp4" ["a.png"]
        ⟨1, "boom", false⟩ ⟨0, "", true⟩ ⟨0, "", true⟩ 0 5).dirPresent = false := by
  refine ⟨by decide, by decide, by decide⟩

/-- Claim C8 (amended): for every job whose pipeline stage fails (non-zero
exit, missing declared output, or exception), the job ends failed with a
NON-EMPTY error recorded and completed_at set, and the entire working
directory is deleted, leaving no files — in particular no intermediate of a
successful earlier stage.  The video-with-subtitle runner records the
captured stderr inside the message; the visualization runner's first two
stages record a generic or exception message instead. -/
theorem C8_amended (taskDir fmt : String) (staged : List String)
    (s1 s2 s3 : StepResult) (t0 tEnd : ℕ) :
    (stepFailed s1 = true ∨ stepFailed s2 = true →
      ∃ r, (videoSubtitleRun taskDir fmt staged s1 s2 t0 tEnd).trace.getLast? = some r ∧
        r.status = JStatus.failed ∧
        (r.error = some ("合成影片失敗: " ++ s1.stderrText) ∨
         r.error = some ("加字幕失敗: " ++ s2.stderrText)) ∧
        (∃ e, r.error = some e ∧ e ≠ "") ∧
        r.completedAt = some tEnd ∧
        (videoSubtitleRun taskDir fmt staged s1 s2 t0 tEnd).dirPresent = false ∧
        (videoSubtitleRun taskDir fmt staged s1 s2 t0 tEnd).dirFiles = []) ∧
    ((s1.returncode != 0) = true ∨ (s2.returncode != 0) = true ∨ stepFailed s3 = true →
      ∃ r, (visualizationRun taskDir fmt staged s1 s2 s3 t0 tEnd).trace.getLast? = some r ∧
        r.status = JStatus.failed ∧
        (∃ e, r.error = some e ∧ e ≠ "") ∧
        r.completedAt = some tEnd ∧
        (visualizationRun taskDir fmt staged s1 s2 s3 t0 tEnd).dirPresent = false ∧
        (visualizationRun taskDir fmt staged s1 s2 s3 t0 tEnd).dirFiles = []) := by
  constructor
  · intro h
    by_cases h1 : stepFailed s1 = true
    · unfold videoSubtitleRun
      simp only [h1, if_true]
      refine ⟨_, rfl, ?_, ?_, ?_, ?_, ?_, ?_⟩ <;>
        first
          | rfl
          | trivial
          | exact Or.inl rfl
          | exact ⟨_, rfl, append_str_ne_empty _ _ (by decide)⟩
    · have h2 : stepFailed s2 = true := by tauto
      rw [Bool.not_eq_true] at h1
      unfold videoSubtitleRun
      simp only [h1, Bool.false_eq_true, if_false, h2, if_true]
      refine ⟨_, rfl, ?_, ?_, ?_, ?_, ?_, ?_⟩ <;>
        first
          | rfl
          | trivial
          | exact Or.inr rfl
          | exact ⟨_, rfl, append_str_ne_empty _ _ (by decide)⟩
  · intro h
    by_cases h1 : (s1.returncode != 0) = true
    · unfold visualizationRun
      simp only [h1, if_true]
      refine ⟨_, rfl, ?_, ?_, ?_, ?_, ?_⟩ <;>
        first
          | rfl
          | trivial
          | exact ⟨_, rfl, by decide⟩
    · by_cases h2 : (s2.returncode != 0) = true
      · rw [Bool.not_eq_true] at h1
        unfold visualizationRun
        simp only [h1, Bool.false_eq_true, if_false, h2, if_true]
        refine ⟨_, rfl, ?_, ?_, ?_, ?_, ?_⟩ <;>
          first
            | rfl
            | trivial
            | exact ⟨_, rfl, by decide⟩
      · have h3 : stepFailed s3 = true := by tauto
        rw [Bool.not_eq_true] at h1 h2
        unfold visualizationRun
        simp only [h1, h2, Bool.false_eq_true, if_false, h3, if_true]
        refine ⟨_, rfl, ?_, ?_, ?_, ?_, ?_⟩ <;>
          first
            | rfl
            | trivial
            | exact ⟨_, rfl, append_str_ne_empty _ _ (by decide)⟩

/-- Claim C8 (amended), witness: both failure conclusions instantiated for
concrete first-stage failures. -/
theorem C8_amended_witness :
    (∃ r, (videoSubtitleRun "task_outputs/t1" "mp4" ["a.png"]
            ⟨1, "boom", true⟩ ⟨0, "", true⟩ 0 5).trace.getLast? = some r ∧
        r.status = JStatus.failed ∧
        (r.error = some ("合成影片失敗: " ++ "boom") ∨
         r.error = some ("加字幕失敗: " ++ "")) ∧
        (∃ e, r.error = some e ∧ e ≠ "") ∧
        r.completedAt = some 5 ∧
        (videoSubtitleRun "task_outputs/t1" "mp4" ["a.png"]
            ⟨1, "boom", true⟩ ⟨0, "", true⟩ 0 5).dirPresent = false ∧
        (videoSubtitleRun "task_outputs/t1" "mp4" ["a.png"]
            ⟨1, "boom", true⟩ ⟨0, "", true⟩ 0 5).dirFiles = []) ∧
    (∃ r, (visualizationRun "task_outputs/t1" "mp4" ["a.png"]
            ⟨1, "boom", true⟩ ⟨0, "", true⟩ ⟨0, "", true⟩ 0 5).trace.getLast? = some r ∧
        r.status = JStatus.failed ∧
        (∃ e, r.error = some e ∧ e ≠ "") ∧
        r.completedAt = some 5 ∧
        (visualizationRun "task_outputs/t1" "mp4" ["a.png"]
            ⟨1, "boom", true⟩ ⟨0, "", true⟩ ⟨0, "", true⟩ 0 5).dirPresent = false ∧
        (visualizationRun "task_outputs/t1" "mp4" ["a.png"]
            ⟨1, "boom", true⟩ ⟨0, "", true⟩ ⟨0, "", true⟩ 0 5).dirFiles = []) :=
  ⟨(C8_amended "task_outputs/t1" "mp4" ["a.png"]
      ⟨1, "boom", true⟩ ⟨0, "", true⟩ ⟨0, "", true⟩ 0 5).1 (Or.inl (by decide)),
   (C8_amended "task_outputs/t1" "mp4" ["a.png"]
      ⟨1, "boom", true⟩ ⟨0, "", true⟩ ⟨0, "", true⟩ 0 5).2 (Or.inl (by decide))⟩

/-- Claim C9: for every terminal job, a sweep strictly more than one hour
after completed_at removes the record (so a subsequent get resolves to
not-found) and, when the working directory is still present, deletes it; a
sweep at most one hour after completed_at leaves the record retrievable
unchanged.  The well-formedness hypotheses (completed implies truthy
output_path, failed implies directory already gone) are the runners'
lifecycle invariants. -/
theorem C9_cleanup (now : ℕ) (store : TaskStore) (id : String)
    (r : TaskRecord) (d : Bool) (t : ℕ)
    (hid : store id = some (r, d))
    (hterm : isTerminal r = true)
    (ht : r.completedAt = some t)
    (hwfC : r.status = JStatus.completed → outputTruthy r = true)
    (hwfF : r.status = JStatus.failed → d = false) :
    (3600 < now - t →
      get_task_status (cleanupSweep now store) id = none ∧
      (d = true → sweepRemovesDir now store id = true)) ∧
    (now - t ≤ 3600 → get_task_status (cleanupSweep now store) id = some r) := by
  have hreap_t : 3600 < now - t → shouldReap now r = true := by
    intro hage
    simp [shouldReap, hterm, ht, hage]
  have hreap_f : now - t ≤ 3600 → shouldReap now r = false := by
    intro hage
    simp [shouldReap, ht]
    intro _
    omega
  constructor
  · intro hage
    constructor
    · simp [get_task_status, cleanupSweep, hid, hreap_t hage]
    · intro hd
      have hstat : r.status = JStatus.completed := by
        unfold isTerminal at hterm
        cases hs : r.status with
        | completed => rfl
        | failed => rw [hwfF hs] at hd; exact absurd hd (by decide)
        | pending => rw [hs] at hterm; exact absurd hterm (by decide)
        | processing => rw [hs] at hterm; exact absurd hterm (by decide)
      simp [sweepRemovesDir, hid, hreap_t hage, isCompletedStatus, hstat, hwfC hstat, hd]
  · intro hage
    simp [get_task_status, cleanupSweep, hid, hreap_f hage]

/-- Claim C9, witness: a completed record completed at time 0 is gone after
a sweep at time 10000 (and its directory is deleted), but still retrievable
after a sweep at time 100. -/
theorem C9_cleanup_witness :
    get_task_status (cleanupSweep 10000 witnessStore) "t1" = none ∧
    sweepRemovesDir 10000 witnessStore "t1" = true ∧
    get_task_status (cleanupSweep 100 witnessStore) "t1" = some witnessRecord := by
  have hid : witnessStore "t1" = some (witnessRecord, true) := by simp [witnessStore]
  have h1 := C9_cleanup 10000 witnessStore "t1" witnessRecord true 0 hid rfl rfl
      (fun _ => rfl) (fun hf => absurd hf (by decide))
  have h2 := C9_cleanup 100 witnessStore "t1" witnessRecord true 0 hid rfl rfl
      (fun _ => rfl) (fun hf => absurd hf (by decide))
  exact ⟨(h1.1 (by norm_num)).1, (h1.1 (by norm_num)).2 rfl, h2.2 (by norm_num)⟩

/-- Claim C10: the download endpoint serves a file only when the task exists
with status completed and its recorded output_path is set, non-empty, and
present on disk (soundness and completeness of that condition), and the
client-supplied filename influences only the suggested download filename,
never which file is served: for any two filenames the served path — or the
not-found outcome — is identical. -/
theorem C10_download (store : TaskStore) (fs : String → Bool) (id fn1 fn2 p sfn : String) :
    (download_task_result store fs id fn1 = some (p, sfn) →
      ∃ r d, store id = some (r, d) ∧ r.status = JStatus.completed ∧
        r.outputPath = some p ∧ p ≠ "" ∧ fs p = true ∧ sfn = fn1) ∧
    ((download_task_result store fs id fn1).map Prod.fst
      = (download_task_result store fs id fn2).map Prod.fst) ∧
    (∀ r d q, store id = some (r, d) → r.status = JStatus.completed →
      r.outputPath = some q → q ≠ "" → fs q = true →
      download_task_result store fs id fn1 = some (q, fn1)) := by
  refine ⟨?_, ?_, ?_⟩
  · intro hdl
    cases hs : store id with
    | none => simp [download_task_result, hs] at hdl
    | some rd =>
      obtain ⟨r, d⟩ := rd
      simp only [download_task_result, hs] at hdl
      by_cases hc : r.status = JStatus.completed
      · rw [if_pos hc] at hdl
        cases hop : r.outputPath with
        | none => simp [hop] at hdl
        | some q =>
          simp only [hop] at hdl
          by_cases hq : q = ""
          · rw [if_pos hq] at hdl; simp at hdl
          · rw [if_neg hq] at hdl
            by_cases hfs : fs q = true
            · rw [if_pos hfs] at hdl
              simp only [Option.some_inj, Prod.mk.injEq] at hdl
              exact ⟨r, d, rfl, hc, by rw [hop, hdl.1], by rw [← hdl.1]; exact hq,
                by rw [← hdl.1]; exact hfs, hdl.2.symm⟩
            · rw [if_neg hfs] at hdl; simp at hdl
      · rw [if_neg hc] at hdl; simp at hdl
  · cases hs : store id with
    | none => simp [download_task_result, hs]
    | some rd =>
      obtain ⟨r, d⟩ := rd
      simp only [download_task_result, hs]
      by_cases hc : r.status = JStatus.completed
      · cases hop : r.outputPath with
        | none => simp [hc, hop]
        | some q =>
          by_cases hq : q = ""
          · simp [hc, hop, hq]
          · by_cases hfs : fs q = true
            · simp [hc, hop, hq, hfs]
            · simp [hc, hop, hq, hfs]
      · rw [if_neg hc, if_neg hc]
  · intro r d q hs hc hop hq hfs
    simp [download_task_result, hs, hc, hop, hq, hfs]

/-- Claim C10, witness: for the concrete completed store entry the file at
the recorded output path is served, and two different filename path
segments serve the same file. -/
theorem C10_download_witness :
    download_task_result witnessStore (fun _ => true) "t1" "a.mp4"
      = some ("task_outputs/t1/output.mp4", "a.mp4") ∧
    (download_task_result witnessStore (fun _ => true) "t1" "a.mp4").map Prod.fst
      = (download_task_result witnessStore (fun _ => true) "t1" "b.mp4").map Prod.fst := by
  have h := C10_download witnessStore (fun _ => true) "t1" "a.mp4" "b.mp4" "x" "y"
  exact ⟨h.2.2 witnessRecord true "task_outputs/t1/output.mp4"
      (by simp [witnessStore]) rfl rfl (by decide) rfl, h.2.1⟩

end FfmpegApi
